import Mathlib

/-!
Verification of the QSurfaceTexture video bridge
(src/android_player/native/QSurfaceTexture.cpp).

The development shallowly embeds the C++ source. Floating-point values
(the 16 entries of a QMatrix4x4 and the coordinates of a QRectF) are
modelled as their bit patterns, represented by `Int`: the code only ever
copies them wholesale and compares them for equality, so nothing finer is
needed. Side-effecting calls (GL calls, JNI calls, signal emissions,
dirty-marking) are recorded as events in a trace; each embedded operation
returns its updated state together with the list of events it performed,
in order.
-/

namespace QST

/-- Bit patterns of the 16 floats of a `QMatrix4x4`, in the order the code
copies them with `GetFloatArrayRegion`. -/
abbrev Mat4 := List Int

/-- The default-constructed `QMatrix4x4` (identity), as written into a fresh
material state by the `SurfaceTextureNode` constructor. -/
def idMat4 : Mat4 := [1, 0, 0, 0, 0, 1, 0, 0, 0, 0, 1, 0, 0, 0, 0, 1]

/-- The material `State` of the shader: the texture transform matrix
`uSTMatrix` and the GL texture name `textureId`
(QSurfaceTexture.cpp lines 8-17). -/
structure State where
  uSTMatrix : Mat4
  textureId : Nat
deriving DecidableEq, Repr

/-- `State::compare` (QSurfaceTexture.cpp lines 13-16): returns `0` when both
fields are equal, `-1` otherwise. -/
def State.compare (s other : State) : Int :=
  if s.uSTMatrix = other.uSTMatrix ∧ s.textureId = other.textureId then 0 else -1

/-- A `QRectF`, kept as its four edges; `top`/`bottom` are the y edges the
flip code manipulates via `setTop`/`setBottom`. -/
structure QRectF where
  left : Int
  top : Int
  right : Int
  bottom : Int
deriving DecidableEq, Repr

/-- The vertical flip performed in `updatePaintNode`
(QSurfaceTexture.cpp lines 211-215): `tmp = rect.top(); rect.setTop
(rect.bottom()); rect.setBottom(tmp);` leaves the x edges untouched and
swaps the two y edges. -/
def flipVertical (r : QRectF) : QRectF :=
  { r with top := r.bottom, bottom := r.top }

/-- One vertex of the textured quad: position `(x, y)` paired with texture
coordinate `(tx, ty)`. -/
structure TexturedPoint2D where
  x : Int
  y : Int
  tx : Int
  ty : Int
deriving DecidableEq, Repr

/-- Modelled from the spec: `QSGGeometry::updateTexturedRectGeometry` is part
of the host rendering framework, which the spec treats as an external
collaborator ("the thin quad-geometry setup"). It writes the four corners of
the position rectangle paired with the matching corners of the source
texture rectangle: each texture corner `(sx, sy)` of `src` is mapped to the
same-named corner of `rect`. -/
def updateTexturedRectGeometry (rect src : QRectF) : List TexturedPoint2D :=
  [ ⟨rect.left, rect.top, src.left, src.top⟩,
    ⟨rect.left, rect.bottom, src.left, src.bottom⟩,
    ⟨rect.right, rect.top, src.right, src.top⟩,
    ⟨rect.right, rect.bottom, src.right, src.bottom⟩ ]

/-- The unit source rectangle `QRectF(0, 0, 1, 1)` passed at
QSurfaceTexture.cpp line 217. -/
def unitRect : QRectF := ⟨0, 0, 1, 1⟩

/-- The quad published for an item bounding rectangle `r`
(QSurfaceTexture.cpp lines 211-217): the textured-rect geometry generated
from the vertically flipped rectangle against the unit texture rectangle. -/
def publishedQuad (r : QRectF) : List TexturedPoint2D :=
  updateTexturedRectGeometry (flipVertical r) unitRect

/-- The observable side effects of the embedded code, recorded in traces. -/
inductive Event where
  /-- `glGenTextures` handed out texture name `id` (line 180). -/
  | glGenTextures (id : Nat)
  /-- `glBindTexture(GL_TEXTURE_EXTERNAL_OES, 0)` in the destructor (line 165). -/
  | glBindTextureZero
  /-- `glDeleteTextures` on texture name `id` (line 166). -/
  | glDeleteTextures (id : Nat)
  /-- Construction of the Java `SurfaceTexture(id)`, binding the producer to
  texture `id` (line 196). -/
  | bindSurfaceTexture (id : Nat)
  /-- `emit surfaceTextureChanged(this)` (line 208). -/
  | surfaceTextureChanged
  /-- Entry into `updatePaintNode`: one re-evaluation of the item. -/
  | evalUpdatePaintNode
  /-- `QSGGeometry::updateTexturedRectGeometry(node->geometry(), rect, ...)`
  with the (already flipped) rectangle `r` (line 217). -/
  | writeGeometry (r : QRectF)
  /-- `node->markDirty` with the geometry and material bits (line 218). -/
  | markDirty (geometry material : Bool)
  /-- JNI call `updateTexImage` on the SurfaceTexture (line 136): the pull. -/
  | updateTexImage
  /-- JNI call `getTransformMatrix` on the SurfaceTexture (line 140): the fetch. -/
  | getTransformMatrix
deriving DecidableEq, Repr

def Event.isGenTextures : Event → Bool
  | .glGenTextures _ => true
  | _ => false

def Event.isDeleteTextures : Event → Bool
  | .glDeleteTextures _ => true
  | _ => false

def Event.isBindSource : Event → Bool
  | .bindSurfaceTexture _ => true
  | _ => false

def Event.isSignal : Event → Bool
  | .surfaceTextureChanged => true
  | _ => false

def Event.isEval : Event → Bool
  | .evalUpdatePaintNode => true
  | _ => false

def Event.isPull : Event → Bool
  | .updateTexImage => true
  | _ => false

def Event.isFetch : Event → Bool
  | .getTransformMatrix => true
  | _ => false

/-- The `SurfaceTextureNode`: what the claims need of it is its material.
`material()` can in principle be null, which `preprocess` guards against
(line 132), so the material is an `Option`. -/
structure SurfaceTextureNode where
  material : Option State
deriving DecidableEq, Repr

/-- The `SurfaceTextureNode` constructor (lines 74-105): creates the material
and sets its `textureId` to the given texture name; the transform matrix is
the default-constructed identity. -/
def SurfaceTextureNode.construct (textureId : Nat) : SurfaceTextureNode :=
  { material := some { uSTMatrix := idMat4, textureId := textureId } }

/-- `SurfaceTextureNode::preprocess` (lines 128-152). `producerT` is the
transform the producer currently reports: the 16 floats `getTransformMatrix`
writes into the scratch array, which `GetFloatArrayRegion` then copies
wholesale into the material state. If the material is null the method
returns at once, performing no JNI call; otherwise it calls
`updateTexImage`, then `getTransformMatrix`, then overwrites the material
transform. -/
def preprocess (producerT : Mat4) (n : SurfaceTextureNode) :
    SurfaceTextureNode × List Event :=
  match n.material with
  | none => (n, [])
  | some mat =>
      ({ material := some { mat with uSTMatrix := producerT } },
       [Event.updateTexImage, Event.getTransformMatrix])

/-- The `QSurfaceTexture` item state: the texture name `mTextureId`
(zero until `updatePaintNode` first runs) and the producer surface
`mSurfaceTexture` (recorded as the texture name it was constructed over,
`none` until bound). -/
structure QSurfaceTexture where
  mTextureId : Nat
  mSurfaceTexture : Option Nat
deriving DecidableEq, Repr

/-- The `QSurfaceTexture` constructor (lines 154-159): no texture, no
surface. -/
def QSurfaceTexture.construct : QSurfaceTexture :=
  { mTextureId := 0, mSurfaceTexture := none }

/-- The `QSurfaceTexture` destructor (lines 161-168): only when `mTextureId`
is nonzero, unbind the external texture target and delete the texture. -/
def destructor (item : QSurfaceTexture) : List Event :=
  if item.mTextureId ≠ 0 then
    [Event.glBindTextureZero, Event.glDeleteTextures item.mTextureId]
  else []

/-- `QSurfaceTexture::updatePaintNode` (lines 172-222). `genId` is the
texture name `glGenTextures` hands out on this GL context (GL never returns
0 from `glGenTextures`). When called with no node, it creates the texture,
constructs the Java `SurfaceTexture` over it (installing the
frame-available listener), constructs the `SurfaceTextureNode` and emits
`surfaceTextureChanged`; in every call it then flips the bounding rectangle
vertically, rewrites the quad geometry from it against the unit texture
rectangle, and marks the node `DirtyGeometry | DirtyMaterial`. -/
def updatePaintNode (genId : Nat) (rect : QRectF) (item : QSurfaceTexture)
    (n : Option SurfaceTextureNode) :
    QSurfaceTexture × SurfaceTextureNode × List Event :=
  let created :=
    match n with
    | some node => (item, node, ([] : List Event))
    | none =>
        ({ mTextureId := genId, mSurfaceTexture := some genId },
         SurfaceTextureNode.construct genId,
         [Event.glGenTextures genId, Event.bindSurfaceTexture genId,
          Event.surfaceTextureChanged])
  (created.1, created.2.1,
    Event.evalUpdatePaintNode :: created.2.2 ++
      [Event.writeGeometry (flipVertical rect), Event.markDirty true true])

/-- The scene as the render thread sees it: the item, the scene-graph node
it returned from `updatePaintNode` (none before the first traversal), and
the pending re-evaluation flag of the host item (see `frameAvailable`). -/
structure Scene where
  item : QSurfaceTexture
  node : Option SurfaceTextureNode
  pendingUpdate : Bool
deriving DecidableEq, Repr

/-- The initial scene: a freshly constructed item, no node, nothing
pending. -/
def Scene.start : Scene :=
  { item := QSurfaceTexture.construct, node := none, pendingUpdate := false }

/-- Whether the node either does not exist yet (so the next traversal will
construct it, with a material) or exists with a non-null material. Every
scene the code itself produces satisfies this; it rules out only the
defensive null-material case of `preprocess`. -/
def Scene.materialReady (s : Scene) : Bool :=
  match s.node with
  | none => true
  | some n => n.material.isSome

/-- One scene-graph traversal touching the item: the scene graph calls
`updatePaintNode` during sync, then — because the node sets `UsePreprocess`
(line 82) — calls `preprocess` on the node before rendering. `producerT` is
the transform the producer reports during this traversal. -/
def traversal (genId : Nat) (rect : QRectF) (producerT : Mat4) (s : Scene) :
    Scene × List Event :=
  let upd := updatePaintNode genId rect s.item s.node
  let pre := preprocess producerT upd.2.1
  ({ s with item := upd.1, node := some pre.1 }, upd.2.2 ++ pre.2)

/-- The frame-available path
(`Java_com_vadim_android_SurfaceTextureListener_frameAvailable`,
lines 224-230): the producer thread posts `update()` to the item with a
queued connection. Modelled from the spec: the Java
`SurfaceTextureListener` (repository code outside src/) forwards each
producer notification to this trampoline, and the host item's queued
re-evaluation request is coalescing — repeated raises before the render
thread consumes them collapse into one pending re-evaluation flag. -/
def frameAvailable (s : Scene) : Scene :=
  { s with pendingUpdate := true }

/-- One pass of the render thread: if a re-evaluation is pending, consume it
and run one traversal of the item; otherwise do nothing. Modelled from the
spec for the host scheduler: "the render thread consumes at most one
pending notification per traversal". -/
def renderPass (genId : Nat) (rect : QRectF) (producerT : Mat4) (s : Scene) :
    Scene × List Event :=
  if s.pendingUpdate then
    let t := traversal genId rect producerT s
    ({ t.1 with pendingUpdate := false }, t.2)
  else (s, [])

/-- Run the traversals of `frames` in order; each entry gives the bounding
rectangle and the producer transform seen by that traversal. -/
def runTraversals (genId : Nat) : List (QRectF × Mat4) → Scene → Scene × List Event
  | [], s => (s, [])
  | f :: rest, s =>
      let t := traversal genId f.1 f.2 s
      let r := runTraversals genId rest t.1
      (r.1, t.2 ++ r.2)

/-- A full item lifecycle: construct, run the given traversals, destroy. -/
def lifecycle (genId : Nat) (frames : List (QRectF × Mat4)) : List Event :=
  let r := runTraversals genId frames Scene.start
  r.2 ++ destructor r.1.item

/-- The transform currently held in the node material of a scene, when
there is one. -/
def Scene.transformOf (s : Scene) : Option Mat4 :=
  match s.node with
  | none => none
  | some n =>
      match n.material with
      | none => none
      | some m => some m.uSTMatrix

/-! ## Helper lemmas -/

/-- Per-traversal trace, node present: no creation events happen. -/
lemma traversal_trace_ready (g : Nat) (r : QRectF) (T : Mat4) (s : Scene)
    (n : SurfaceTextureNode) (h : s.node = some n) :
    (traversal g r T s).2 =
      [Event.evalUpdatePaintNode, Event.writeGeometry (flipVertical r),
        Event.markDirty true true] ++ (preprocess T n).2 := by
  simp [traversal, updatePaintNode, h]

/-- Per-traversal trace, no node yet: the creation events happen, then the
geometry publish, then the pull and fetch of the freshly built node. -/
lemma traversal_trace_fresh (g : Nat) (r : QRectF) (T : Mat4) (s : Scene)
    (h : s.node = none) :
    (traversal g r T s).2 =
      [Event.evalUpdatePaintNode, Event.glGenTextures g,
        Event.bindSurfaceTexture g, Event.surfaceTextureChanged,
        Event.writeGeometry (flipVertical r), Event.markDirty true true,
        Event.updateTexImage, Event.getTransformMatrix] := by
  simp [traversal, updatePaintNode, h, preprocess, SurfaceTextureNode.construct]

/-- A traversal always leaves a node in place. -/
lemma traversal_node_some (g : Nat) (r : QRectF) (T : Mat4) (s : Scene) :
    ((traversal g r T s).1.node).isSome = true := by
  simp [traversal]

/-- A traversal with a node in place does not touch the item fields. -/
lemma traversal_item_ready (g : Nat) (r : QRectF) (T : Mat4) (s : Scene)
    (n : SurfaceTextureNode) (h : s.node = some n) :
    (traversal g r T s).1.item = s.item := by
  simp [traversal, updatePaintNode, h]

/-- The first traversal stores the generated texture name in the item and
records the producer binding over it. -/
lemma traversal_item_fresh (g : Nat) (r : QRectF) (T : Mat4) (s : Scene)
    (h : s.node = none) :
    (traversal g r T s).1.item = ⟨g, some g⟩ := by
  simp [traversal, updatePaintNode, h]

/-- Pulls per traversal: exactly one, whenever the material is not null
(also in the creation traversal, whose fresh node has a material). -/
lemma traversal_countP_pull (g : Nat) (r : QRectF) (T : Mat4) (s : Scene)
    (hm : s.materialReady = true) :
    (traversal g r T s).2.countP Event.isPull = 1 := by
  cases h : s.node with
  | none => rw [traversal_trace_fresh g r T s h]; rfl
  | some n =>
      rw [traversal_trace_ready g r T s n h]
      unfold Scene.materialReady at hm
      rw [h] at hm
      cases hmat : n.material with
      | none => simp [hmat] at hm
      | some m => simp [preprocess, hmat, List.countP_append, Event.isPull]

/-- Fetches per traversal: exactly one, whenever the material is not null. -/
lemma traversal_countP_fetch (g : Nat) (r : QRectF) (T : Mat4) (s : Scene)
    (hm : s.materialReady = true) :
    (traversal g r T s).2.countP Event.isFetch = 1 := by
  cases h : s.node with
  | none => rw [traversal_trace_fresh g r T s h]; rfl
  | some n =>
      rw [traversal_trace_ready g r T s n h]
      unfold Scene.materialReady at hm
      rw [h] at hm
      cases hmat : n.material with
      | none => simp [hmat] at hm
      | some m => simp [preprocess, hmat, List.countP_append, Event.isFetch]

/-- Re-evaluations per traversal: exactly one `updatePaintNode` entry. -/
lemma traversal_countP_eval (g : Nat) (r : QRectF) (T : Mat4) (s : Scene) :
    (traversal g r T s).2.countP Event.isEval = 1 := by
  cases h : s.node with
  | none => rw [traversal_trace_fresh g r T s h]; rfl
  | some n =>
      rw [traversal_trace_ready g r T s n h]
      cases hmat : n.material with
      | none => simp [preprocess, hmat, List.countP_append, Event.isEval]
      | some m => simp [preprocess, hmat, List.countP_append, Event.isEval]

/-- After a traversal, the material holds exactly the producer transform of
that traversal (material not null). -/
lemma traversal_transformOf (g : Nat) (r : QRectF) (T : Mat4) (s : Scene)
    (hm : s.materialReady = true) :
    (traversal g r T s).1.transformOf = some T := by
  cases h : s.node with
  | none =>
      simp [traversal, updatePaintNode, h, preprocess,
        SurfaceTextureNode.construct, Scene.transformOf]
  | some n =>
      unfold Scene.materialReady at hm
      rw [h] at hm
      cases hmat : n.material with
      | none => simp [hmat] at hm
      | some m =>
          simp [traversal, updatePaintNode, h, preprocess, hmat, Scene.transformOf]

/-- A traversal never consults the pending re-evaluation flag: its trace is
the same for either flag value. -/
lemma traversal_ignores_pending (g : Nat) (r : QRectF) (T : Mat4) (s : Scene)
    (b : Bool) :
    (traversal g r T { s with pendingUpdate := b }).2 = (traversal g r T s).2 := by
  simp [traversal, updatePaintNode]

/-- Node after a traversal that found a node in place. -/
lemma traversal_node_ready (g : Nat) (r : QRectF) (T : Mat4) (s : Scene)
    (n : SurfaceTextureNode) (h : s.node = some n) :
    (traversal g r T s).1.node = some (preprocess T n).1 := by
  simp [traversal, updatePaintNode, h]

/-- Node after the first traversal: the freshly constructed node, already
pulled once. -/
lemma traversal_node_fresh (g : Nat) (r : QRectF) (T : Mat4) (s : Scene)
    (h : s.node = none) :
    (traversal g r T s).1.node =
      some (preprocess T (SurfaceTextureNode.construct g)).1 := by
  simp [traversal, updatePaintNode, h]

/-- No traversal ever deletes a texture. -/
lemma traversal_countP_delete (g : Nat) (r : QRectF) (T : Mat4) (s : Scene) :
    (traversal g r T s).2.countP Event.isDeleteTextures = 0 := by
  cases h : s.node with
  | none => rw [traversal_trace_fresh g r T s h]; rfl
  | some n =>
      rw [traversal_trace_ready g r T s n h]
      cases hmat : n.material with
      | none =>
          simp [preprocess, hmat, List.countP_append, Event.isDeleteTextures]
      | some m =>
          simp [preprocess, hmat, List.countP_append, Event.isDeleteTextures]

/-- The creation traversal creates, binds and signals exactly once each. -/
lemma traversal_counts_fresh (g : Nat) (r : QRectF) (T : Mat4) (s : Scene)
    (h : s.node = none) :
    (traversal g r T s).2.countP Event.isGenTextures = 1 ∧
      (traversal g r T s).2.countP Event.isBindSource = 1 ∧
      (traversal g r T s).2.countP Event.isSignal = 1 := by
  rw [traversal_trace_fresh g r T s h]
  exact ⟨rfl, rfl, rfl⟩

/-- A traversal that found a node in place neither creates nor binds nor
signals. -/
lemma traversal_counts_ready (g : Nat) (r : QRectF) (T : Mat4) (s : Scene)
    (n : SurfaceTextureNode) (h : s.node = some n) :
    (traversal g r T s).2.countP Event.isGenTextures = 0 ∧
      (traversal g r T s).2.countP Event.isBindSource = 0 ∧
      (traversal g r T s).2.countP Event.isSignal = 0 := by
  rw [traversal_trace_ready g r T s n h]
  cases hmat : n.material with
  | none =>
      simp [preprocess, hmat, List.countP_append, Event.isGenTextures,
        Event.isBindSource, Event.isSignal]
  | some m =>
      simp [preprocess, hmat, List.countP_append, Event.isGenTextures,
        Event.isBindSource, Event.isSignal]

/-- Once the node exists, any number of further traversals leaves the item
fields alone and performs no creation, binding, signalling or deletion. -/
lemma runTraversals_ready (g : Nat) (fs : List (QRectF × Mat4)) (s : Scene)
    (n : SurfaceTextureNode) (h : s.node = some n) :
    (runTraversals g fs s).1.item = s.item ∧
      (runTraversals g fs s).2.countP Event.isGenTextures = 0 ∧
      (runTraversals g fs s).2.countP Event.isBindSource = 0 ∧
      (runTraversals g fs s).2.countP Event.isSignal = 0 ∧
      (runTraversals g fs s).2.countP Event.isDeleteTextures = 0 := by
  induction fs generalizing s n with
  | nil => simp [runTraversals]
  | cons f rest ih =>
      have h2 := traversal_node_ready g f.1 f.2 s n h
      obtain ⟨hitem, hgen, hbind, hsig, hdel⟩ :=
        ih (traversal g f.1 f.2 s).1 (preprocess f.2 n).1 h2
      obtain ⟨hg3, hb3, hs3⟩ := traversal_counts_ready g f.1 f.2 s n h
      have h4 := traversal_countP_delete g f.1 f.2 s
      have h1 := traversal_item_ready g f.1 f.2 s n h
      simp only [runTraversals, List.countP_append]
      exact ⟨hitem.trans h1, by omega, by omega, by omega, by omega⟩

/-- The destructor neither creates, binds nor signals; it deletes exactly
when the item holds a nonzero texture name. -/
lemma destructor_counts (item : QSurfaceTexture) :
    (destructor item).countP Event.isGenTextures = 0 ∧
      (destructor item).countP Event.isBindSource = 0 ∧
      (destructor item).countP Event.isSignal = 0 ∧
      (destructor item).countP Event.isDeleteTextures =
        (if item.mTextureId ≠ 0 then 1 else 0) := by
  by_cases h : item.mTextureId = 0
  · simp [destructor, h]
  · simp [destructor, h, Event.isGenTextures, Event.isBindSource,
      Event.isSignal, Event.isDeleteTextures]

/-- Raising the frame-available notification any positive number of times
leaves the scene with the single pending re-evaluation flag set and touches
nothing else. -/
lemma frameAvailable_iterate (N : Nat) (s : Scene) :
    frameAvailable^[N + 1] s = { s with pendingUpdate := true } := by
  induction N generalizing s with
  | zero => rfl
  | succ n ih =>
      rw [Function.iterate_succ_apply]
      rw [ih (frameAvailable s)]
      rfl

/-! ## Claim theorems -/

/-- C8: `State::compare` returns 0 exactly when both fields — the texture
transform matrix and the texture id — are equal between the two states. -/
theorem compare_eq_zero_iff (s t : State) :
    s.compare t = 0 ↔ s.uSTMatrix = t.uSTMatrix ∧ s.textureId = t.textureId := by
  unfold State.compare
  split <;> simp_all

/-- Witness for C8 at a concrete pair of states. -/
theorem compare_eq_zero_iff_witness :
    (State.mk idMat4 7).compare (State.mk idMat4 7) = 0 :=
  (compare_eq_zero_iff (State.mk idMat4 7) (State.mk idMat4 7)).mpr ⟨rfl, rfl⟩

/-- C9: when the node's material is null, `preprocess` returns immediately:
it performs no JNI call (no `updateTexImage`, no `getTransformMatrix`) and
leaves the node — hence the material state — unchanged. -/
theorem preprocess_null_material (producerT : Mat4) (n : SurfaceTextureNode)
    (h : n.material = none) :
    preprocess producerT n = (n, []) := by
  unfold preprocess
  rw [h]

/-- Witness for C9 at the concrete node with null material. -/
theorem preprocess_null_material_witness :
    preprocess idMat4 ⟨none⟩ = (⟨none⟩, []) :=
  preprocess_null_material idMat4 ⟨none⟩ rfl

/-- C3: after a pull in which the producer reports transform `T`, the
material state's transform equals `T` (all 16 values overwritten wholesale,
the texture id untouched), and this is already so when `preprocess`
returns — before the subsequent draw call. -/
theorem preprocess_transform_fresh (T : Mat4) (n : SurfaceTextureNode)
    (m : State) (hm : n.material = some m) :
    (preprocess T n).1.material = some { uSTMatrix := T, textureId := m.textureId } := by
  unfold preprocess
  rw [hm]

/-- Witness for C3: a concrete pull overwrites the identity transform with
the producer transform. -/
theorem preprocess_transform_fresh_witness :
    (SurfaceTextureNode.construct 3).material =
        some { uSTMatrix := idMat4, textureId := 3 } ∧
      (preprocess [2, 0, 0, 0, 0, 2, 0, 0, 0, 0, 2, 0, 0, 0, 0, 2]
            (SurfaceTextureNode.construct 3)).1.material =
        some { uSTMatrix := [2, 0, 0, 0, 0, 2, 0, 0, 0, 0, 2, 0, 0, 0, 0, 2],
               textureId := 3 } :=
  ⟨rfl,
   preprocess_transform_fresh _ (SurfaceTextureNode.construct 3) _ rfl⟩

/-- C6: for every item bounding rectangle, the published quad is the raw
textured-rect quad with its vertical axis inverted: every vertex keeps its
horizontal position and its texture coordinate, while its vertical position
is reflected across the rectangle (`y ↦ top + bottom - y`), so the
rectangle's top and bottom edges are swapped relative to the unflipped
mapping. -/
theorem publishedQuad_flips_vertical (r : QRectF) :
    publishedQuad r =
      (updateTexturedRectGeometry r unitRect).map
        (fun v => { v with y := r.top + r.bottom - v.y }) := by
  simp [publishedQuad, updateTexturedRectGeometry, flipVertical, unitRect]

/-- C10: a texture deletion is issued only when a texture was previously
created: if `updatePaintNode` never ran, the texture id is still zero and
the destructor performs no GL call at all. -/
theorem destructor_no_delete_without_create (item : QSurfaceTexture)
    (h : item.mTextureId = 0) :
    destructor item = [] := by
  unfold destructor
  rw [h]
  simp

/-- Witness for C10: the destructor of a freshly constructed item does
nothing. -/
theorem destructor_no_delete_without_create_witness :
    destructor QSurfaceTexture.construct = [] :=
  destructor_no_delete_without_create QSurfaceTexture.construct rfl

/-- Counterexample to C5: two consecutive traversals with the identical
bounding rectangle `(0, 0, 4, 3)`; on the second traversal — whose bounds
have not changed — the code still rewrites the quad geometry from the
flipped rectangle and still marks the node dirty with the geometry bit set
(`markDirty(DirtyGeometry | DirtyMaterial)`), against the claim that the
geometry is then neither re-written nor marked dirty. -/
theorem second_traversal_rewrites_geometry :
    Event.writeGeometry (flipVertical ⟨0, 0, 4, 3⟩) ∈
        (traversal 1 ⟨0, 0, 4, 3⟩ idMat4
          (traversal 1 ⟨0, 0, 4, 3⟩ idMat4 Scene.start).1).2 ∧
      Event.markDirty true true ∈
        (traversal 1 ⟨0, 0, 4, 3⟩ idMat4
          (traversal 1 ⟨0, 0, 4, 3⟩ idMat4 Scene.start).1).2 := by
  decide

/-- C5 as amended: on every traversal — bounds changed or not — the quad
geometry is rewritten from the vertically flipped bounding rectangle and
the node is marked dirty with both the geometry and the material bits. -/
theorem every_traversal_rewrites_geometry (g : Nat) (r : QRectF) (T : Mat4)
    (s : Scene) :
    Event.writeGeometry (flipVertical r) ∈ (traversal g r T s).2 ∧
      Event.markDirty true true ∈ (traversal g r T s).2 := by
  cases h : s.node with
  | none => rw [traversal_trace_fresh g r T s h]; simp
  | some n =>
      rw [traversal_trace_ready g r T s n h]
      simp

/-- C1: every scene-graph traversal runs the pre-draw hook
unconditionally: its trace holds exactly one `updateTexImage` (the pull)
and exactly one `getTransformMatrix` (the fetch), in that order as the
final two events; the material transform is overwritten with the producer
transform of that traversal; and the trace does not depend on the
Pending-Frame Flag — no dirty-check skips the pull. -/
theorem traversal_force_publish (g : Nat) (r : QRectF) (T : Mat4) (s : Scene)
    (hm : s.materialReady = true) :
    (traversal g r T s).2.countP Event.isPull = 1 ∧
      (traversal g r T s).2.countP Event.isFetch = 1 ∧
      (∃ pre, (traversal g r T s).2 =
        pre ++ [Event.updateTexImage, Event.getTransformMatrix]) ∧
      (traversal g r T s).1.transformOf = some T ∧
      ∀ b, (traversal g r T { s with pendingUpdate := b }).2 =
        (traversal g r T s).2 := by
  refine ⟨traversal_countP_pull g r T s hm, traversal_countP_fetch g r T s hm,
    ?_, traversal_transformOf g r T s hm, traversal_ignores_pending g r T s⟩
  cases h : s.node with
  | none =>
      rw [traversal_trace_fresh g r T s h]
      exact ⟨[Event.evalUpdatePaintNode, Event.glGenTextures g,
        Event.bindSurfaceTexture g, Event.surfaceTextureChanged,
        Event.writeGeometry (flipVertical r), Event.markDirty true true], rfl⟩
  | some n =>
      rw [traversal_trace_ready g r T s n h]
      unfold Scene.materialReady at hm
      rw [h] at hm
      cases hmat : n.material with
      | none => simp [hmat] at hm
      | some m =>
          refine ⟨[Event.evalUpdatePaintNode, Event.writeGeometry (flipVertical r),
            Event.markDirty true true], ?_⟩
          simp [preprocess, hmat]

/-- Witness for C1 at a concrete scene (the initial scene, whose first
traversal builds the node and still pulls and fetches exactly once). -/
theorem traversal_force_publish_witness :
    Scene.start.materialReady = true ∧
      ((traversal 2 ⟨0, 0, 8, 6⟩ idMat4 Scene.start).2.countP Event.isPull = 1 ∧
        (traversal 2 ⟨0, 0, 8, 6⟩ idMat4 Scene.start).2.countP Event.isFetch = 1 ∧
        (∃ pre, (traversal 2 ⟨0, 0, 8, 6⟩ idMat4 Scene.start).2 =
          pre ++ [Event.updateTexImage, Event.getTransformMatrix]) ∧
        (traversal 2 ⟨0, 0, 8, 6⟩ idMat4 Scene.start).1.transformOf = some idMat4 ∧
        ∀ b, (traversal 2 ⟨0, 0, 8, 6⟩ idMat4
            { Scene.start with pendingUpdate := b }).2 =
          (traversal 2 ⟨0, 0, 8, 6⟩ idMat4 Scene.start).2) :=
  ⟨rfl, traversal_force_publish 2 ⟨0, 0, 8, 6⟩ idMat4 Scene.start rfl⟩

/-- C2: any positive number N of frame-available notifications raised by
the producer thread before the render thread processes them collapse into
exactly one re-evaluation (one `updatePaintNode` entry) whose processing
performs exactly one `updateTexImage` pull — never N. -/
theorem frame_notifications_coalesce (N g : Nat) (r : QRectF) (T : Mat4)
    (s : Scene) (hN : 1 ≤ N) (hm : s.materialReady = true) :
    (renderPass g r T (frameAvailable^[N] s)).2.countP Event.isEval = 1 ∧
      (renderPass g r T (frameAvailable^[N] s)).2.countP Event.isPull = 1 := by
  obtain ⟨M, rfl⟩ : ∃ M, N = M + 1 := ⟨N - 1, by omega⟩
  rw [frameAvailable_iterate]
  have he := traversal_countP_eval g r T { s with pendingUpdate := true }
  have hp := traversal_countP_pull g r T { s with pendingUpdate := true } hm
  exact ⟨he, hp⟩

/-- Witness for C2: three rapid-fire notifications, one render pass, one
re-evaluation, one pull. -/
theorem frame_notifications_coalesce_witness :
    (1 ≤ 3 ∧ Scene.start.materialReady = true) ∧
      (renderPass 1 ⟨0, 0, 2, 2⟩ idMat4 (frameAvailable^[3] Scene.start)).2.countP
          Event.isEval = 1 ∧
      (renderPass 1 ⟨0, 0, 2, 2⟩ idMat4 (frameAvailable^[3] Scene.start)).2.countP
          Event.isPull = 1 :=
  ⟨⟨by decide, rfl⟩,
   frame_notifications_coalesce 3 1 ⟨0, 0, 2, 2⟩ idMat4 Scene.start (by decide) rfl⟩

/-- C4: over a whole lifecycle — construct, then N ≥ 1 traversals, then
destroy — the GPU texture is created exactly once and destroyed exactly
once, and the producer surface is bound exactly once; creation and binding
both happen on the first traversal. -/
theorem lifecycle_exactly_once (g : Nat) (r0 : QRectF) (T0 : Mat4)
    (fs : List (QRectF × Mat4)) (hg : g ≠ 0) :
    (lifecycle g ((r0, T0) :: fs)).countP Event.isGenTextures = 1 ∧
      (lifecycle g ((r0, T0) :: fs)).countP Event.isBindSource = 1 ∧
      (lifecycle g ((r0, T0) :: fs)).countP Event.isDeleteTextures = 1 ∧
      Event.glGenTextures g ∈ (traversal g r0 T0 Scene.start).2 ∧
      Event.bindSurfaceTexture g ∈ (traversal g r0 T0 Scene.start).2 := by
  have hstart : Scene.start.node = none := rfl
  have hnode := traversal_node_fresh g r0 T0 Scene.start hstart
  obtain ⟨hitem, hgen, hbind, hsig, hdel⟩ :=
    runTraversals_ready g fs (traversal g r0 T0 Scene.start).1
      (preprocess T0 (SurfaceTextureNode.construct g)).1 hnode
  obtain ⟨hg1, hb1, hs1⟩ := traversal_counts_fresh g r0 T0 Scene.start hstart
  have hd1 := traversal_countP_delete g r0 T0 Scene.start
  have hfin : (runTraversals g fs (traversal g r0 T0 Scene.start).1).1.item =
      ⟨g, some g⟩ :=
    hitem.trans (traversal_item_fresh g r0 T0 Scene.start hstart)
  obtain ⟨hdg, hdb, hds, _⟩ :=
    destructor_counts (runTraversals g fs (traversal g r0 T0 Scene.start).1).1.item
  have hdd : (destructor
      ((runTraversals g fs (traversal g r0 T0 Scene.start).1).1.item)).countP
        Event.isDeleteTextures = 1 := by
    rw [hfin]
    simp [destructor, hg, Event.isDeleteTextures]
  constructor
  · unfold lifecycle
    simp only [runTraversals, List.countP_append]
    omega
  constructor
  · unfold lifecycle
    simp only [runTraversals, List.countP_append]
    omega
  constructor
  · unfold lifecycle
    simp only [runTraversals, List.countP_append]
    omega
  constructor
  · rw [traversal_trace_fresh g r0 T0 Scene.start hstart]
    simp
  · rw [traversal_trace_fresh g r0 T0 Scene.start hstart]
    simp

/-- Witness for C4: one concrete lifecycle with two traversals and texture
name 1. -/
theorem lifecycle_exactly_once_witness :
    ((1 : Nat) ≠ 0) ∧
      ((lifecycle 1 [(⟨0, 0, 4, 3⟩, idMat4), (⟨0, 0, 4, 3⟩, idMat4)]).countP
          Event.isGenTextures = 1 ∧
        (lifecycle 1 [(⟨0, 0, 4, 3⟩, idMat4), (⟨0, 0, 4, 3⟩, idMat4)]).countP
          Event.isBindSource = 1 ∧
        (lifecycle 1 [(⟨0, 0, 4, 3⟩, idMat4), (⟨0, 0, 4, 3⟩, idMat4)]).countP
          Event.isDeleteTextures = 1 ∧
        Event.glGenTextures 1 ∈ (traversal 1 ⟨0, 0, 4, 3⟩ idMat4 Scene.start).2 ∧
        Event.bindSurfaceTexture 1 ∈
          (traversal 1 ⟨0, 0, 4, 3⟩ idMat4 Scene.start).2) :=
  ⟨by decide,
   lifecycle_exactly_once 1 ⟨0, 0, 4, 3⟩ idMat4 [(⟨0, 0, 4, 3⟩, idMat4)] (by decide)⟩

/-- C7: over a whole lifecycle the `surfaceTextureChanged` notification is
emitted exactly once, namely on the first traversal — when the producer
surface first becomes available — and never again on later traversals or
at teardown. -/
theorem surfaceTextureChanged_once (g : Nat) (r0 : QRectF) (T0 : Mat4)
    (fs : List (QRectF × Mat4)) :
    (lifecycle g ((r0, T0) :: fs)).countP Event.isSignal = 1 ∧
      (traversal g r0 T0 Scene.start).2.countP Event.isSignal = 1 ∧
      Event.surfaceTextureChanged ∈ (traversal g r0 T0 Scene.start).2 := by
  have hstart : Scene.start.node = none := rfl
  have hnode := traversal_node_fresh g r0 T0 Scene.start hstart
  obtain ⟨hitem, hgen, hbind, hsig, hdel⟩ :=
    runTraversals_ready g fs (traversal g r0 T0 Scene.start).1
      (preprocess T0 (SurfaceTextureNode.construct g)).1 hnode
  obtain ⟨hg1, hb1, hs1⟩ := traversal_counts_fresh g r0 T0 Scene.start hstart
  obtain ⟨hdg, hdb, hds, hdd⟩ :=
    destructor_counts (runTraversals g fs (traversal g r0 T0 Scene.start).1).1.item
  refine ⟨?_, hs1, ?_⟩
  · unfold lifecycle
    simp only [runTraversals, List.countP_append]
    omega
  · rw [traversal_trace_fresh g r0 T0 Scene.start hstart]
    simp

end QST
